import Mathlib

/-! Shallow embedding of the entity-simulation core of the CloseAirCombat
repository: `envs/JSBSim/core/simulatior.py` (property access, the
`AircraftSimulator.run` refresh, and the `MissileSimulator` guidance state
machine), together with the missile-launch call site in
`envs/JSBSim/tasks/singlecombat_with_missle_task.py`.

Modelling conventions:

* Machine floats are embedded as exact rationals (`ℚ`).
* The transcendental functions the source reaches through numpy (`sqrt`,
  `exp`, `sin`, `cos`, `arcsin`, `pi`) and the coordinate transforms
  `LLA2NEU` / `NEU2LLA` (defined in `utils/utils.py`, an external
  collaborator for the claims below) are abstracted into an `Ops` record;
  theorems quantify over it, so they hold for every interpretation of
  those functions, in particular the real one.
* `np.linalg.norm(v) ** 2` is embedded as the sum of squares `normSq v`,
  and a comparison `np.linalg.norm(v) < c` with the constant `c = 300 > 0`
  is embedded as `normSq v < c ^ 2`; both use the real-number identity
  `(sqrt x) ^ 2 = x` for `x ≥ 0` and are exact re-expressions of the
  source semantics that avoid an uncomputable square root.  Where a square
  root appears in the source *not* under a square or a comparison (the
  guidance command magnitudes), `Ops.sqrt` is used.
* The external JSBSim property store is a finite association list; a
  fresh binding is consed on write, and lookup takes the newest binding.
-/

/-- Abstract interpretations of the real-valued library functions used by
`simulatior.py` through numpy and `utils/utils.py`. -/
structure Ops where
  sqrt : ℚ → ℚ
  exp : ℚ → ℚ
  sin : ℚ → ℚ
  cos : ℚ → ℚ
  arcsin : ℚ → ℚ
  pi : ℚ
  lla2neu : ℚ × ℚ × ℚ → ℚ × ℚ × ℚ → ℚ × ℚ × ℚ
  neu2lla : ℚ × ℚ × ℚ → ℚ × ℚ × ℚ → ℚ × ℚ × ℚ

/-- Python exception kinds that the embedded code can raise. -/
inductive PyErr where
  | valueError
  | runtimeError
  | assertionError
  | typeError
  | attributeError
  | unboundLocalError
deriving DecidableEq

/-- `isOkE e` is true when the embedded Python call returned normally. -/
def isOkE {α : Type} : Except PyErr α → Bool
  | Except.ok _ => true
  | Except.error _ => false

/-- The JSBSim named-property backing store. -/
abbrev Store := List (String × ℚ)

/-- `jsbsim_exec.get_property_value(name)`: newest binding wins, absent
names read as 0. -/
def lookupStore : Store → String → ℚ
  | [], _ => 0
  | (k2, v) :: rest, k => if k2 = k then v else lookupStore rest k

/-- `jsbsim_exec.set_property_value(name, value)`. -/
def insertStore (st : Store) (k : String) (v : ℚ) : Store :=
  (k, v) :: st

/-- Cached state of one `AircraftSimulator` (fields of `BaseSimulator` and
`AircraftSimulator`), with its backing JSBSim property store. -/
structure AircraftState where
  uid : String
  color : String
  model : String
  dt : ℚ
  geodetic : ℚ × ℚ × ℚ
  position : ℚ × ℚ × ℚ
  poseture : ℚ × ℚ × ℚ
  velocity : ℚ × ℚ × ℚ
  lon0 : ℚ
  lat0 : ℚ
  alt0 : ℚ
  store : Store
deriving DecidableEq

/-- A catalog `Property` (from `core/catalog.py`, as consumed by
`simulatior.py`): a JSBSim name, clamp bounds, an access string, and an
optional update hook `prop.update(self)` mutating the owning simulator. -/
structure Property where
  name_jsbsim : String
  min : ℚ
  max : ℚ
  access : String
  update : Option (AircraftState → AircraftState)

/-- `if prop.update: prop.update(self)` — a present hook is truthy. -/
def applyHook (u : Option (AircraftState → AircraftState)) (s : AircraftState) : AircraftState :=
  match u with
  | some hk => hk s
  | none => s

/-- The dynamic argument of `get_property_value` / `set_property_value`:
either a `Property` instance or some other Python object (the
`isinstance` check fails on the latter). -/
inductive PyObj where
  | prop (p : Property)
  | other

/-- Body of `AircraftSimulator.get_property_value` for a `Property`
argument (`simulatior.py` lines 219-232): the update hook runs only when
the access string is exactly `"R"`; then the backing store is read. -/
def getPropertyValueP (p : Property) (s : AircraftState) : ℚ × AircraftState :=
  let s2 := if p.access = "R" then applyHook p.update s else s
  (lookupStore s2.store p.name_jsbsim, s2)

/-- `AircraftSimulator.get_property_value` with the `isinstance` check. -/
def get_property_value (obj : PyObj) (s : AircraftState) : Except PyErr (ℚ × AircraftState) :=
  match obj with
  | PyObj.prop p => Except.ok (getPropertyValueP p s)
  | PyObj.other => Except.error PyErr.valueError

/-- The clamp-and-write step of `AircraftSimulator.set_property_value`
(`simulatior.py` lines 242-248): the value is moved onto `[min, max]` and
written to the backing store unconditionally — there is no write-access
check. -/
def clampedWrite (p : Property) (v : ℚ) (s : AircraftState) : AircraftState :=
  let value := if v < p.min then p.min else if v > p.max then p.max else v
  { s with store := insertStore s.store p.name_jsbsim value }

/-- `AircraftSimulator.set_property_value` (lines 234-254): clamp, write,
then run the update hook when `"W" in prop.access` — embedded as
membership of the character `W` in the access string; raise `ValueError`
only for a non-`Property` argument. -/
def set_property_value (obj : PyObj) (v : ℚ) (s : AircraftState) : Except PyErr AircraftState :=
  match obj with
  | PyObj.prop p =>
      let s1 := clampedWrite p v s
      if 'W' ∈ p.access.data then Except.ok (applyHook p.update s1) else Except.ok s1
  | PyObj.other => Except.error PyErr.valueError

/-- `get_property_values(props)`: sequential reads, threading the hook
side effects through the simulator state. -/
def get_property_values : List Property → AircraftState → List ℚ × AircraftState
  | [], s => ([], s)
  | p :: rest, s =>
      let r1 := getPropertyValueP p s
      let r2 := get_property_values rest r1.2
      (r1.1 :: r2.1, r2.2)

/-- Unpack the 3-element value list assigned into a numpy triple slot. -/
def triple (l : List ℚ) : ℚ × ℚ × ℚ :=
  (l.getD 0 0, l.getD 1 0, l.getD 2 0)

/-- The nine catalog entries `_update_properties` reads. -/
structure AcCatalog where
  position_long_gc_deg : Property
  position_lat_geod_deg : Property
  position_h_sl_m : Property
  attitude_roll_rad : Property
  attitude_pitch_rad : Property
  attitude_heading_true_rad : Property
  velocities_v_north_mps : Property
  velocities_v_east_mps : Property
  velocities_v_down_mps : Property

/-- None of the nine refresh properties carries an update hook. -/
def noHooks (cat : AcCatalog) : Prop :=
  cat.position_long_gc_deg.update.isNone = true
  ∧ cat.position_lat_geod_deg.update.isNone = true
  ∧ cat.position_h_sl_m.update.isNone = true
  ∧ cat.attitude_roll_rad.update.isNone = true
  ∧ cat.attitude_pitch_rad.update.isNone = true
  ∧ cat.attitude_heading_true_rad.update.isNone = true
  ∧ cat.velocities_v_north_mps.update.isNone = true
  ∧ cat.velocities_v_east_mps.update.isNone = true
  ∧ cat.velocities_v_down_mps.update.isNone = true

/-- `AircraftSimulator._update_properties` (lines 173-192): refresh the
cached geodetic triple from three named properties, the NEU position via
the `LLA2NEU` transform about the recorded origin, then attitude and
velocity triples. -/
def updateProperties (ops : Ops) (cat : AcCatalog) (s : AircraftState) : AircraftState :=
  let rg := get_property_values
    [cat.position_long_gc_deg, cat.position_lat_geod_deg, cat.position_h_sl_m] s
  let s1 := { rg.2 with geodetic := triple rg.1 }
  let s2 := { s1 with position := ops.lla2neu (triple rg.1) (s1.lon0, s1.lat0, s1.alt0) }
  let ra := get_property_values
    [cat.attitude_roll_rad, cat.attitude_pitch_rad, cat.attitude_heading_true_rad] s2
  let s3 := { ra.2 with poseture := triple ra.1 }
  let rv := get_property_values
    [cat.velocities_v_north_mps, cat.velocities_v_east_mps, cat.velocities_v_down_mps] s3
  { rv.2 with velocity := triple rv.1 }

/-- One call of the opaque JSBSim integrator: the boolean its `run()`
returns, and the property store contents after the step. -/
structure JSBSimExec where
  run_result : Bool
  post : Store

/-- `AircraftSimulator.run` (lines 152-166): step the FDM, raise
`RuntimeError` when it reports failure, otherwise refresh the cached
state and return the (true) result. -/
def AircraftSimulator.run (ops : Ops) (cat : AcCatalog) (fdm : JSBSimExec)
    (s : AircraftState) : Except PyErr (AircraftState × Bool) :=
  if fdm.run_result then
    Except.ok (updateProperties ops cat { s with store := fdm.post }, true)
  else
    Except.error PyErr.runtimeError

/-! ## Missile entity -/

/-- `self._t_max = 30` — flight-time limit, s. -/
def missile_t_max : ℚ := 30
/-- `self._Tmax = 10000` — maximum thrust, N. -/
def missile_Tmax : ℚ := 10000
/-- `self._S = 0.025` — cross-sectional area, m². -/
def missile_S : ℚ := 1/40
/-- `self._m0 = 150` — initial mass, kg. -/
def missile_m0 : ℚ := 150
/-- `self._dm = 4` — mass loss rate, kg/s. -/
def missile_dm : ℚ := 4
/-- `self._CD = 0.1` — drag factor. -/
def missile_CD : ℚ := 1/10
/-- `self._g = 9.81` — gravitational acceleration. -/
def missile_g : ℚ := 981/100
/-- `self._K = 3` — proportional-navigation gain. -/
def missile_K : ℚ := 3
/-- `self._n_max = 40` — maximum overload. -/
def missile_n_max : ℚ := 40
/-- `self._Rc = 300` — kill radius, m. -/
def missile_Rc : ℚ := 300
/-- `rho0 = 1.225e-3` in the `qbar` property. -/
def missile_rho0 : ℚ := 1225/1000000

/-- State of one `MissileSimulator`.  `t` and `m` are the flight clock and
remaining mass (`self._t`, `self._m`), first assigned in `launch`; the
embedding initialises them to 0. -/
structure MissileState where
  uid : String
  color : String
  model : String
  dt : ℚ
  status : String
  render_explosion : Bool
  t : ℚ
  m : ℚ
  geodetic : ℚ × ℚ × ℚ
  position : ℚ × ℚ × ℚ
  velocity : ℚ × ℚ × ℚ
  poseture : ℚ × ℚ × ℚ
  lon0 : ℚ
  lat0 : ℚ
  alt0 : ℚ
deriving DecidableEq

/-- The live state of `self.target_aircraft` that `_guidance` reads:
`get_position()` and `get_velocity()`. -/
structure TargetState where
  position : ℚ × ℚ × ℚ
  velocity : ℚ × ℚ × ℚ
deriving DecidableEq

/-- `MissileSimulator.__init__(uid, team, model, dt)`. -/
def mkMissile (uid team model : String) (dt : ℚ) : MissileState :=
  { uid := uid, color := team, model := model, dt := dt, status := "",
    render_explosion := false, t := 0, m := 0, geodetic := (0, 0, 0),
    position := (0, 0, 0), velocity := (0, 0, 0), poseture := (0, 0, 0),
    lon0 := 0, lat0 := 0, alt0 := 0 }

/-- `MissileSimulator.launch(parent)`: copy the parent's kinematic state,
zero the roll, copy the origin, reset the clock and mass, go `Launched`. -/
def MissileSimulator.launch (parent : AircraftState) (s : MissileState) : MissileState :=
  { s with
    geodetic := parent.geodetic
    position := parent.position
    velocity := parent.velocity
    poseture := (0, parent.poseture.2.1, parent.poseture.2.2)
    lon0 := parent.lon0
    lat0 := parent.lat0
    alt0 := parent.alt0
    t := 0
    m := missile_m0
    status := "Launched" }

/-- Sum of squares: `np.linalg.norm(v) ** 2` with exact real semantics. -/
def normSq (v : ℚ × ℚ × ℚ) : ℚ := v.1 ^ 2 + v.2.1 ^ 2 + v.2.2 ^ 2

/-- Squared missile speed `v_m ** 2` (`v_m = np.linalg.norm(velocity)`). -/
def vmSq (s : MissileState) : ℚ := normSq s.velocity

/-- `Rxy ** 2`: squared horizontal missile-target distance.  This is the
denominator of `dbeta` in `_guidance` (`Rxy**2`, line 349). -/
def RxySq (s : MissileState) (tgt : TargetState) : ℚ :=
  (s.position.1 - tgt.position.1) ^ 2 + (s.position.2.1 - tgt.position.2.1) ^ 2

/-- `Rxyz ** 2`: squared 3D missile-target distance; the hit test
`Rxyz < self._Rc` is embedded as `RxyzSq < missile_Rc ^ 2`. -/
def RxyzSq (s : MissileState) (tgt : TargetState) : ℚ :=
  (s.position.1 - tgt.position.1) ^ 2 + (s.position.2.1 - tgt.position.2.1) ^ 2
    + (tgt.position.2.2 - s.position.2.2) ^ 2

/-- `np.clip(x, lo, hi)`. -/
def npclip (x lo hi : ℚ) : ℚ := min hi (max x lo)

/-- `MissileSimulator._guidance` (lines 334-355): proportional navigation.
The divisions by `Rxy**2`, `Rxyz**2 * Rxy` and `v_m` are unguarded, as in
the source. -/
def MissileSimulator.guidance (ops : Ops) (s : MissileState) (tgt : TargetState) :
    (ℚ × ℚ) × Bool :=
  let v_m := ops.sqrt (vmSq s)
  let theta_m := ops.arcsin (s.velocity.2.2 / v_m)
  let dx := tgt.velocity.1 - s.velocity.1
  let dy := tgt.velocity.2.1 - s.velocity.2.1
  let dz := tgt.velocity.2.2 - s.velocity.2.2
  let ex := tgt.position.1 - s.position.1
  let ey := tgt.position.2.1 - s.position.2.1
  let ez := tgt.position.2.2 - s.position.2.2
  let dbeta := (dy * ex - dx * ey) / RxySq s tgt
  let deps := (dz * RxySq s tgt - ez * (ex * dx + ey * dy))
      / (RxyzSq s tgt * ops.sqrt (RxySq s tgt))
  let ny := missile_K * v_m / missile_g * ops.cos theta_m * dbeta
  let nz := missile_K * v_m / missile_g * deps + ops.cos theta_m
  ((npclip ny (-missile_n_max) missile_n_max, npclip nz (-missile_n_max) missile_n_max),
   decide (RxyzSq s tgt < missile_Rc ^ 2))

/-- The `qbar` property: exponential-atmosphere dynamic pressure read on
the current position and velocity. -/
def MissileSimulator.qbar (ops : Ops) (s : MissileState) : ℚ :=
  let rho := missile_rho0 * ops.exp (-s.position.2.2 / 9300)
  1/2 * rho * normSq s.velocity

/-- `MissileSimulator._state_trans(action)` (lines 367-396): forward-Euler
point-mass integration.  Position integrates from the old velocity first;
`qbar` then reads the new position with the old velocity, exactly as the
in-place numpy updates do. -/
def MissileSimulator.state_trans (ops : Ops) (action : ℚ × ℚ) (s : MissileState) :
    MissileState :=
  let px := s.position.1 + s.dt * s.velocity.1
  let py := s.position.2.1 + s.dt * s.velocity.2.1
  let pz := s.position.2.2 + s.dt * s.velocity.2.2
  let geo := ops.neu2lla (px, py, pz) (s.lon0, s.lat0, s.alt0)
  let v := ops.sqrt (normSq s.velocity)
  let theta := s.poseture.2.1
  let phi := s.poseture.2.2
  let q := MissileSimulator.qbar ops { s with position := (px, py, pz) }
  let D := missile_CD * missile_S * q
  let nx := (missile_Tmax - D) / (s.m * missile_g)
  let dv := missile_g * (nx - ops.sin theta)
  let dphi := missile_g / v * (action.1 * ops.cos theta)
  let dtheta := missile_g / v * (action.2 - ops.cos theta)
  let v2 := v + s.dt * dv
  let phi2 := phi + s.dt * dphi
  let theta2 := theta + s.dt * dtheta
  { s with
    position := (px, py, pz)
    geodetic := geo
    velocity := (v2 * ops.cos theta2 * ops.cos phi2,
                 v2 * ops.cos theta2 * ops.sin phi2,
                 v2 * ops.sin theta2)
    poseture := (0, theta2, phi2)
    m := s.m - s.dt * missile_dm }

/-- `MissileSimulator.run` (lines 307-315): advance the clock, compute
guidance, then Hit / Inactive / integrate.  There is no guard on the
current status. -/
def MissileSimulator.run (ops : Ops) (tgt : TargetState) (s : MissileState) : MissileState :=
  let s1 := { s with t := s.t + s.dt }
  let gi := MissileSimulator.guidance ops s1 tgt
  if gi.2 then { s1 with status := "Hit" }
  else if s1.t > missile_t_max then { s1 with status := "Inactive" }
  else MissileSimulator.state_trans ops gi.1 s1

/-- The trajectory of repeated `run()` calls against a per-tick target
state sequence. -/
def missTraj (ops : Ops) (tgt : ℕ → TargetState) (s0 : MissileState) : ℕ → MissileState
  | 0 => s0
  | n + 1 => MissileSimulator.run ops (tgt n) (missTraj ops tgt s0 n)

/-- Squared 3D distance checked by the hit test during `run()` call
`n + 1`: between the missile state entering that call and the target
state that call reads. -/
def dSq (ops : Ops) (tgt : ℕ → TargetState) (s0 : MissileState) (n : ℕ) : ℚ :=
  RxyzSq (missTraj ops tgt s0 n) (tgt n)

/-- Python truthiness of a string: non-empty is truthy. -/
def pyTruthy (s : String) : Bool := !s.isEmpty

/-- `BaseSimulator.log`: the aircraft-style state line. -/
def base_log_msg (ops : Ops) (uid model color : String)
    (geodetic poseture : ℚ × ℚ × ℚ) : String :=
  uid ++ ",T=" ++ toString geodetic.1 ++ "|" ++ toString geodetic.2.1 ++ "|"
    ++ toString geodetic.2.2 ++ "|" ++ toString (poseture.1 * 180 / ops.pi) ++ "|"
    ++ toString (poseture.2.1 * 180 / ops.pi) ++ "|"
    ++ toString (poseture.2.2 * 180 / ops.pi)
    ++ ",Name=" ++ model.toUpper ++ ",Color=" ++ color

/-- `MissileSimulator.log` (lines 317-329).  The Python condition
`(self._status == "Hit" or "Inactive")` is the truthy value of that `or`
expression, hence `decide (status = "Hit") || pyTruthy "Inactive"`.  When
neither branch assigns `log_msg`, `return log_msg` raises
`UnboundLocalError`. -/
def MissileSimulator.log (ops : Ops) (s : MissileState) :
    Except PyErr String × MissileState :=
  if s.status = "Launched" then
    (Except.ok (base_log_msg ops s.uid s.model s.color s.geodetic s.poseture), s)
  else if (decide (s.status = "Hit") || pyTruthy "Inactive") && !s.render_explosion then
    let s2 := { s with render_explosion := true }
    let head := "-" ++ s.uid ++ "\n"
    let body := s.uid ++ "F,T=" ++ toString s.geodetic.1 ++ "|" ++ toString s.geodetic.2.1
      ++ "|" ++ toString s.geodetic.2.2 ++ "|" ++ toString (s.poseture.1 * 180 / ops.pi)
      ++ "|" ++ toString (s.poseture.2.1 * 180 / ops.pi) ++ "|"
      ++ toString (s.poseture.2.2 * 180 / ops.pi)
      ++ ",Type=Misc+Explosion,Color=" ++ s.color ++ ",Radius=" ++ toString missile_Rc
    (Except.ok (head ++ body), s2)
  else
    (Except.error PyErr.unboundLocalError, s)

/-! ## The `MissileSimulator.create` classmethod and its call semantics

`create` is declared

    @classmethod
    def create(parent: AircraftSimulator, target: AircraftSimulator,
               uid: str, missile_model: str):

so `cls` — the class object `MissileSimulator` itself — is bound to the
formal parameter named `parent`.  `PyVal` models the Python values that
can flow through a call of `create`; attribute access on the class object
yields the `dt` property *descriptor*, not a float. -/

inductive PyVal where
  | float (q : ℚ)
  | str (s : String)
  | classMissileSimulator
  | dtDescriptor
  | aircraftObj (a : AircraftState)
  | missileObj (m : MissileState)

/-- Python `==` as used on `parent.dt` / `target.dt`: floats and strings
compare by value; a value compared with one of a different type falls
back to identity and is `False`; the class object and the `dt` descriptor
are each a single object, equal to themselves. -/
def pyEq : PyVal → PyVal → Bool
  | PyVal.float a, PyVal.float b => decide (a = b)
  | PyVal.str a, PyVal.str b => decide (a = b)
  | PyVal.classMissileSimulator, PyVal.classMissileSimulator => true
  | PyVal.dtDescriptor, PyVal.dtDescriptor => true
  | _, _ => false

/-- Attribute access `x.dt`: on the class it returns the property
descriptor; on an instance it returns the float `_dt`. -/
def getattrDt : PyVal → Except PyErr PyVal
  | PyVal.classMissileSimulator => Except.ok PyVal.dtDescriptor
  | PyVal.aircraftObj a => Except.ok (PyVal.float a.dt)
  | PyVal.missileObj m => Except.ok (PyVal.float m.dt)
  | _ => Except.error PyErr.attributeError

/-- Attribute access `x._color`: an instance attribute, absent on the
class object. -/
def getattrColor : PyVal → Except PyErr PyVal
  | PyVal.aircraftObj a => Except.ok (PyVal.str a.color)
  | PyVal.missileObj m => Except.ok (PyVal.str m.color)
  | _ => Except.error PyErr.attributeError

/-- Coerce a bound argument to the string slot it is stored into
(only the `str` case is reachable through `callCreate`). -/
def pyStr : PyVal → String
  | PyVal.str s => s
  | PyVal.float q => toString q
  | _ => ""

/-- Coerce a bound argument to the float slot it is stored into. -/
def pyFloat : PyVal → ℚ
  | PyVal.float q => q
  | _ => 0

/-- `missile.launch(parent)` with a dynamic parent: instance attributes
exist on aircraft and missiles, not on other values. -/
def pyLaunch (parent : PyVal) (s : MissileState) : Except PyErr MissileState :=
  match parent with
  | PyVal.aircraftObj a => Except.ok (MissileSimulator.launch a s)
  | PyVal.missileObj p =>
      Except.ok { s with
        geodetic := p.geodetic
        position := p.position
        velocity := p.velocity
        poseture := (0, p.poseture.2.1, p.poseture.2.2)
        lon0 := p.lon0
        lat0 := p.lat0
        alt0 := p.alt0
        t := 0
        m := missile_m0
        status := "Launched" }
  | _ => Except.error PyErr.attributeError

/-- Body of `MissileSimulator.create` (lines 259-265), evaluated on
whatever the call bound to its four parameters: the assertion
`parent.dt == target.dt`, then
`MissileSimulator(uid, parent._color, missile_model, parent.dt)`,
`missile.launch(parent)`, `missile.target(target)` (the last stores a
reference and cannot raise). -/
def createBody (parent target uidV mmV : PyVal) : Except PyErr PyVal :=
  match getattrDt parent with
  | Except.error e => Except.error e
  | Except.ok pdt =>
    match getattrDt target with
    | Except.error e => Except.error e
    | Except.ok tdt =>
      if pyEq pdt tdt then
        match getattrColor parent with
        | Except.error e => Except.error e
        | Except.ok col =>
          match pyLaunch parent (mkMissile (pyStr uidV) (pyStr col) (pyStr mmV) (pyFloat pdt)) with
          | Except.error e => Except.error e
          | Except.ok m1 => Except.ok (PyVal.missileObj m1)
      else Except.error PyErr.assertionError

/-- The formal parameter list of `create`. -/
def createParams : List String := ["parent", "target", "uid", "missile_model"]

/-- CPython keyword binding onto already positionally-bound parameters: a
keyword for an already-bound name raises `TypeError` ("got multiple
values for argument"), an unknown keyword raises `TypeError`. -/
def bindKw (params : List String) :
    List (String × PyVal) → List (String × PyVal) → Except PyErr (List (String × PyVal))
  | bound, [] => Except.ok bound
  | bound, (k, v) :: rest =>
      if (bound.map Prod.fst).contains k then Except.error PyErr.typeError
      else if params.contains k then bindKw params (bound ++ [(k, v)]) rest
      else Except.error PyErr.typeError

/-- CPython call binding without defaults: too many positionals, a
duplicate or unknown keyword, or a missing parameter raise `TypeError`. -/
def bindArgs (params : List String) (posargs : List PyVal)
    (kwargs : List (String × PyVal)) : Except PyErr (List (String × PyVal)) :=
  if params.length < posargs.length then Except.error PyErr.typeError
  else
    match bindKw params ((params.take posargs.length).zip posargs) kwargs with
    | Except.error e => Except.error e
    | Except.ok bound =>
        if bound.length = params.length then Except.ok bound
        else Except.error PyErr.typeError

/-- First binding for a parameter name. -/
def getBound : List (String × PyVal) → String → PyVal
  | [], _ => PyVal.str ""
  | (k2, v) :: rest, k => if k2 = k then v else getBound rest k

/-- A call `MissileSimulator.create(*posargs, **kwargs)`: the classmethod
machinery prepends the class object to the positional arguments, so the
first formal parameter — named `parent` — always receives the class. -/
def MissileSimulator.callCreate (posargs : List PyVal)
    (kwargs : List (String × PyVal)) : Except PyErr PyVal :=
  match bindArgs createParams (PyVal.classMissileSimulator :: posargs) kwargs with
  | Except.error e => Except.error e
  | Except.ok bound =>
      createBody (getBound bound "parent") (getBound bound "target")
        (getBound bound "uid") (getBound bound "missile_model")

/-! ## Concrete scenarios used by witnesses and counterexamples -/

/-- A fixed interpretation of the abstract real functions, used to
instantiate universally quantified theorems on concrete inputs. -/
def ops0 : Ops :=
  { sqrt := fun _ => 0, exp := fun _ => 0, sin := fun _ => 0, cos := fun _ => 0,
    arcsin := fun _ => 0, pi := 3,
    lla2neu := fun _ _ => (0, 0, 0), neu2lla := fun _ _ => (0, 0, 0) }

/-- An aircraft simulator with an empty backing store. -/
def acEmpty : AircraftState :=
  { uid := "A0100", color := "Red", model := "f16", dt := 1/60,
    geodetic := (120, 60, 6000), position := (0, 0, 0), poseture := (0, 0, 0),
    velocity := (0, 0, 0), lon0 := 120, lat0 := 60, alt0 := 0, store := [] }

/-- A read-only property (access "R", no hook). -/
def c4prop : Property :=
  { name_jsbsim := "attitude/roll-rad", min := 0, max := 10, access := "R", update := none }

/-- An update hook with a visible effect on the backing store. -/
def c5hook : AircraftState → AircraftState :=
  fun s => { s with store := insertStore s.store "hooked" 1 }

/-- A read- and write-capable property carrying an update hook. -/
def c5propRW : Property :=
  { name_jsbsim := "sim/derived", min := -1000, max := 1000, access := "RW",
    update := some c5hook }

/-- A read-only property carrying the same update hook. -/
def c5propR : Property :=
  { name_jsbsim := "sim/derived", min := -1000, max := 1000, access := "R",
    update := some c5hook }

/-- A missile that has hit its target and has not yet rendered the
explosion. -/
def c2hit : MissileState :=
  { uid := "A01001", color := "Red", model := "AIM-9X", dt := 1/12, status := "Hit",
    render_explosion := false, t := 5, m := 130, geodetic := (120, 60, 5000),
    position := (0, 0, 0), velocity := (0, 0, 0), poseture := (0, 0, 0),
    lon0 := 120, lat0 := 60, alt0 := 0 }

/-- A missile that went `Inactive` (flight clock past `t_max`, state
frozen at the origin of the NEU frame). -/
def c3Inactive : MissileState :=
  { uid := "A01002", color := "Red", model := "AIM-9X", dt := 1/12, status := "Inactive",
    render_explosion := false, t := 31, m := 30, geodetic := (120, 60, 5000),
    position := (0, 0, 0), velocity := (0, 0, 0), poseture := (0, 0, 0),
    lon0 := 120, lat0 := 60, alt0 := 0 }

/-- A target that has meanwhile flown to 100 m above the frozen missile:
inside the 300 m kill radius. -/
def c3Target : TargetState := { position := (0, 0, 100), velocity := (0, 0, 0) }

/-- Launched missile, zero velocity, at the NEU origin. -/
def sW7 : MissileState :=
  { uid := "A01003", color := "Red", model := "AIM-9X", dt := 1/12, status := "Launched",
    render_explosion := false, t := 0, m := 150, geodetic := (120, 60, 5000),
    position := (0, 0, 0), velocity := (0, 0, 0), poseture := (0, 0, 0),
    lon0 := 120, lat0 := 60, alt0 := 0 }

/-- A target that stays 1000 m away: the hit test never fires. -/
def tgtW7 : ℕ → TargetState := fun _ => { position := (1000, 0, 0), velocity := (0, 0, 0) }

/-- Launched missile for the convergence scenario. -/
def sW8 : MissileState :=
  { uid := "A01004", color := "Blue", model := "AIM-9X", dt := 1/12, status := "Launched",
    render_explosion := false, t := 0, m := 150, geodetic := (120, 60, 5000),
    position := (0, 0, 0), velocity := (0, 0, 0), poseture := (0, 0, 0),
    lon0 := 120, lat0 := 60, alt0 := 0 }

/-- A target closing monotonically from 400 m down to 250 m: the 3D
distance first drops under the 300 m kill radius at tick index 101. -/
def tgtW8 : ℕ → TargetState :=
  fun n => { position := (max (400 - (n : ℚ)) 250, 0, 0), velocity := (0, 0, 0) }

/-- A launched missile moving horizontally, directly below its target. -/
def c10above : MissileState :=
  { uid := "A01005", color := "Red", model := "AIM-9X", dt := 1/12, status := "Launched",
    render_explosion := false, t := 1, m := 149, geodetic := (120, 60, 5000),
    position := (0, 0, 0), velocity := (100, 0, 0), poseture := (0, 0, 0),
    lon0 := 120, lat0 := 60, alt0 := 0 }

/-- The target vertically above the missile: zero horizontal distance. -/
def c10aboveTgt : TargetState := { position := (0, 0, 500), velocity := (0, 0, 0) }

/-- A launched missile with zero velocity. -/
def c10still : MissileState :=
  { uid := "A01006", color := "Red", model := "AIM-9X", dt := 1/12, status := "Launched",
    render_explosion := false, t := 1, m := 149, geodetic := (120, 60, 5000),
    position := (0, 0, 0), velocity := (0, 0, 0), poseture := (0, 0, 0),
    lon0 := 120, lat0 := 60, alt0 := 0 }

/-- Some target for the zero-velocity scenario. -/
def c10stillTgt : TargetState := { position := (1000, 0, 0), velocity := (0, 0, 0) }

/-- The nine refresh properties, hook-free, with their JSBSim names. -/
def cat9 : AcCatalog :=
  { position_long_gc_deg := ⟨"position/long-gc-deg", -180, 180, "R", none⟩,
    position_lat_geod_deg := ⟨"position/lat-geod-deg", -90, 90, "R", none⟩,
    position_h_sl_m := ⟨"position/h-sl-meters", -1000, 100000, "R", none⟩,
    attitude_roll_rad := ⟨"attitude/roll-rad", -10, 10, "R", none⟩,
    attitude_pitch_rad := ⟨"attitude/pitch-rad", -10, 10, "R", none⟩,
    attitude_heading_true_rad := ⟨"attitude/heading-true-rad", -10, 10, "R", none⟩,
    velocities_v_north_mps := ⟨"velocities/v-north-mps", -2000, 2000, "R", none⟩,
    velocities_v_east_mps := ⟨"velocities/v-east-mps", -2000, 2000, "R", none⟩,
    velocities_v_down_mps := ⟨"velocities/v-down-mps", -2000, 2000, "R", none⟩ }

/-- A successful JSBSim step with fresh property values. -/
def fdm9 : JSBSimExec :=
  { run_result := true,
    post := [("position/long-gc-deg", 120), ("position/lat-geod-deg", 60),
             ("position/h-sl-meters", 5000), ("attitude/roll-rad", 1/10),
             ("attitude/pitch-rad", 1/5), ("attitude/heading-true-rad", 3/2),
             ("velocities/v-north-mps", 200), ("velocities/v-east-mps", 10),
             ("velocities/v-down-mps", -5)] }

/-- A failing JSBSim step. -/
def fdmBad : JSBSimExec := { run_result := false, post := [] }

/-! ## Helper lemmas -/

lemma lookupStore_insert_self (st : Store) (k : String) (v : ℚ) :
    lookupStore (insertStore st k v) k = v := by
  simp [insertStore, lookupStore]

lemma set_property_value_no_W (p : Property) (v : ℚ) (s : AircraftState)
    (h : 'W' ∉ p.access.data) :
    set_property_value (PyObj.prop p) v s = Except.ok (clampedWrite p v s) := by
  simp [set_property_value, h]

lemma getP_no_hook (p : Property) (s : AircraftState) (h : p.update.isNone = true) :
    getPropertyValueP p s = (lookupStore s.store p.name_jsbsim, s) := by
  rw [Option.isNone_iff_eq_none] at h
  unfold getPropertyValueP applyHook
  rw [h]
  split <;> rfl

lemma run_status_eq (ops : Ops) (tgt : TargetState) (s : MissileState) :
    (MissileSimulator.run ops tgt s).status =
      (if RxyzSq s tgt < missile_Rc ^ 2 then "Hit"
       else if s.t + s.dt > missile_t_max then "Inactive" else s.status) := by
  have e : RxyzSq { s with t := s.t + s.dt } tgt = RxyzSq s tgt := rfl
  by_cases h : RxyzSq s tgt < missile_Rc ^ 2
  · simp [MissileSimulator.run, MissileSimulator.guidance, e, h]
  · by_cases h2 : s.t + s.dt > missile_t_max
    · simp [MissileSimulator.run, MissileSimulator.guidance, e, h, h2]
    · simp [MissileSimulator.run, MissileSimulator.guidance, MissileSimulator.state_trans,
        e, h, h2]

lemma run_t_eq (ops : Ops) (tgt : TargetState) (s : MissileState) :
    (MissileSimulator.run ops tgt s).t = s.t + s.dt := by
  unfold MissileSimulator.run
  dsimp only
  split
  · rfl
  · split
    · rfl
    · rfl

lemma run_dt_eq (ops : Ops) (tgt : TargetState) (s : MissileState) :
    (MissileSimulator.run ops tgt s).dt = s.dt := by
  unfold MissileSimulator.run
  dsimp only
  split
  · rfl
  · split
    · rfl
    · rfl

lemma missTraj_dt (ops : Ops) (tgt : ℕ → TargetState) (s0 : MissileState) :
    ∀ n, (missTraj ops tgt s0 n).dt = s0.dt := by
  intro n
  induction n with
  | zero => rfl
  | succ n ih =>
    show (MissileSimulator.run ops (tgt n) (missTraj ops tgt s0 n)).dt = s0.dt
    rw [run_dt_eq, ih]

lemma missTraj_t (ops : Ops) (tgt : ℕ → TargetState) (s0 : MissileState) :
    ∀ n, (missTraj ops tgt s0 n).t = s0.t + n * s0.dt := by
  intro n
  induction n with
  | zero => simp [missTraj]
  | succ n ih =>
    show (MissileSimulator.run ops (tgt n) (missTraj ops tgt s0 n)).t = _
    rw [run_t_eq, ih, missTraj_dt]
    push_cast
    ring

/-! ## Claim theorems -/

/-- C2 (code bug in `MissileSimulator.log`): on a missile whose status has
transitioned to Hit, the first `log()` call succeeds (removal marker plus
explosion line) and sets the render-once flag; but the second call does
not "emit nothing or a no-op marker": with the flag set, neither branch
of `log` assigns `log_msg`, so `return log_msg` raises
`UnboundLocalError`. -/
theorem log_second_call_unbound_c2 :
    isOkE (MissileSimulator.log ops0 c2hit).1 = true
    ∧ (MissileSimulator.log ops0 c2hit).2.render_explosion = true
    ∧ (MissileSimulator.log ops0 (MissileSimulator.log ops0 c2hit).2).1
        = Except.error PyErr.unboundLocalError := by
  refine ⟨rfl, rfl, rfl⟩

/-- C3 counterexample: `run()` called on a missile whose status is
`Inactive` does not leave the status unchanged — with the target having
meanwhile come within the kill radius of the frozen missile, the status
flips from Inactive to Hit. -/
theorem run_inactive_to_hit_counterexample_c3 :
    c3Inactive.status = "Inactive"
    ∧ (MissileSimulator.run ops0 c3Target c3Inactive).status = "Hit" := by
  refine ⟨rfl, ?_⟩
  rw [run_status_eq,
    if_pos (by norm_num [RxyzSq, c3Inactive, c3Target, missile_Rc])]

/-- C3 (amended): `run()` has no terminal-status guard.  On any missile —
Hit and Inactive included — a `run()` call increments the flight clock
and re-evaluates the guidance hit test; the resulting status is Hit when
the hit test holds, Inactive when it fails and the incremented clock
exceeds `t_max`, and otherwise the previous status with the flight state
re-integrated.  Hit/Inactive are terminal only insofar as the caller
stops invoking `run()`. -/
theorem run_no_terminal_guard_c3_amended (ops : Ops) (tgt : TargetState) (s : MissileState) :
    (MissileSimulator.run ops tgt s).status =
      (if RxyzSq s tgt < missile_Rc ^ 2 then "Hit"
       else if s.t + s.dt > missile_t_max then "Inactive" else s.status)
    ∧ (MissileSimulator.run ops tgt s).t = s.t + s.dt :=
  ⟨run_status_eq ops tgt s, run_t_eq ops tgt s⟩

/-- C4 counterexample: `set_property_value` on a property whose access set
does not contain Write raises nothing and changes the backing store — the
claimed ReadOnly failure does not exist on this path. -/
theorem set_readonly_no_error_counterexample_c4 :
    c4prop.access = "R"
    ∧ set_property_value (PyObj.prop c4prop) 5 acEmpty
        = Except.ok (clampedWrite c4prop 5 acEmpty)
    ∧ lookupStore (clampedWrite c4prop 5 acEmpty).store c4prop.name_jsbsim = 5
    ∧ lookupStore acEmpty.store c4prop.name_jsbsim = 0 := by
  refine ⟨rfl, set_property_value_no_W c4prop 5 acEmpty (by decide), by decide, by decide⟩

/-- C4 (amended): `set_property_value` performs no write-access check: for
every property without Write in its access set it still clamps the value,
writes it to the backing store and returns successfully; the missing
Write capability only means the post-write update hook is skipped. -/
theorem set_no_write_check_c4_amended (p : Property) (v : ℚ) (s : AircraftState)
    (h : 'W' ∉ p.access.data) :
    set_property_value (PyObj.prop p) v s = Except.ok (clampedWrite p v s) :=
  set_property_value_no_W p v s h

/-- Witness for the amended C4 theorem at a concrete read-only property. -/
theorem set_no_write_check_c4_amended_witness :
    set_property_value (PyObj.prop c4prop) 20 acEmpty
      = Except.ok (clampedWrite c4prop 20 acEmpty) :=
  set_no_write_check_c4_amended c4prop 20 acEmpty (by decide)

/-- C5 counterexample: a property that is both Read- and Write-capable
(access "RW") and has an update hook does *not* run the hook on read: the
simulator state returned by `get_property_value` is unchanged, although
the hook would have visibly changed the store. -/
theorem read_hook_not_run_rw_counterexample_c5 :
    c5propRW.access = "RW"
    ∧ c5propRW.update.isSome = true
    ∧ (getPropertyValueP c5propRW acEmpty).2 = acEmpty
    ∧ lookupStore (c5hook acEmpty).store "hooked" = 1 := by
  refine ⟨rfl, rfl, rfl, by decide⟩

/-- C5 (amended): the read hook runs only when the access string is
exactly "R": for such a property with a hook, `get_property_value` runs
the hook against the owning entity before reading the backing store; for
any other access string (in particular "RW") the entity is unchanged, and
with no hook the read is pure. -/
theorem read_hook_only_exact_R_c5_amended (p : Property) (s : AircraftState) :
    (∀ hk, p.access = "R" → p.update = some hk →
        getPropertyValueP p s = (lookupStore (hk s).store p.name_jsbsim, hk s))
    ∧ (p.access ≠ "R" → (getPropertyValueP p s).2 = s)
    ∧ (p.update = none → getPropertyValueP p s = (lookupStore s.store p.name_jsbsim, s)) := by
  refine ⟨?_, ?_, ?_⟩
  · intro hk ha hu
    simp [getPropertyValueP, applyHook, ha, hu]
  · intro ha
    simp [getPropertyValueP, applyHook, ha]
  · intro hu
    simp [getPropertyValueP, applyHook, hu]

/-- Witness for the amended C5 theorem: the hook runs for the "R" variant
and is skipped for the "RW" variant of the same property. -/
theorem read_hook_only_exact_R_c5_amended_witness :
    getPropertyValueP c5propR acEmpty
      = (lookupStore (c5hook acEmpty).store c5propR.name_jsbsim, c5hook acEmpty)
    ∧ (getPropertyValueP c5propRW acEmpty).2 = acEmpty :=
  ⟨(read_hook_only_exact_R_c5_amended c5propR acEmpty).1 c5hook rfl rfl,
   (read_hook_only_exact_R_c5_amended c5propRW acEmpty).2.1 (by decide)⟩

/-- C6: `set_property_value` writes exactly `min` when `v < min`, exactly
`max` when `v > max` (and not below `min`), and `v` itself otherwise; the
write always succeeds, no error is raised for out-of-range input. -/
theorem set_clamps_to_bounds_c6 (p : Property) (v : ℚ) (s : AircraftState) :
    isOkE (set_property_value (PyObj.prop p) v s) = true
    ∧ (v < p.min → lookupStore (clampedWrite p v s).store p.name_jsbsim = p.min)
    ∧ (¬ v < p.min → v > p.max → lookupStore (clampedWrite p v s).store p.name_jsbsim = p.max)
    ∧ (¬ v < p.min → ¬ v > p.max → lookupStore (clampedWrite p v s).store p.name_jsbsim = v) := by
  refine ⟨?_, ?_, ?_, ?_⟩
  · unfold set_property_value
    dsimp only
    split <;> rfl
  · intro h1
    simp [clampedWrite, h1, insertStore, lookupStore]
  · intro h1 h2
    simp [clampedWrite, h1, h2, insertStore, lookupStore]
  · intro h1 h2
    simp [clampedWrite, h1, h2, insertStore, lookupStore]

/-- Witness for C6: below-range, in-range and above-range writes through a
[0, 10]-bounded property store 0, the value, and 10 respectively. -/
theorem set_clamps_to_bounds_c6_witness :
    lookupStore (clampedWrite c4prop (-3) acEmpty).store c4prop.name_jsbsim = 0
    ∧ lookupStore (clampedWrite c4prop 5 acEmpty).store c4prop.name_jsbsim = 5
    ∧ lookupStore (clampedWrite c4prop 12 acEmpty).store c4prop.name_jsbsim = 10 :=
  ⟨(set_clamps_to_bounds_c6 c4prop (-3) acEmpty).2.1 (by decide),
   (set_clamps_to_bounds_c6 c4prop 5 acEmpty).2.2.2 (by decide) (by decide),
   (set_clamps_to_bounds_c6 c4prop 12 acEmpty).2.2.1 (by decide) (by decide)⟩

/-- C10: `_guidance` divides by `Rxy**2`, by `Rxyz**2 * Rxy` and by `v_m`
without a zero guard, and `run()` evaluates it on every call.  At the
Launched state `c10above`, the missile sits directly below its target, so
the squared horizontal distance `Rxy**2` — the `dbeta` denominator, and a
factor of the `deps` denominator — is zero, while the computation still
proceeds (the hit test evaluates); at the Launched state `c10still` the
missile speed is zero, so the divisor `v_m` vanishes. -/
theorem guidance_divisor_zero_c10 :
    (c10above.status = "Launched" ∧ RxySq c10above c10aboveTgt = 0
      ∧ (MissileSimulator.guidance ops0 c10above c10aboveTgt).2 = false)
    ∧ (c10still.status = "Launched" ∧ vmSq c10still = 0) := by
  refine ⟨⟨rfl, ?_, ?_⟩, ⟨rfl, ?_⟩⟩
  · norm_num [RxySq, c10above, c10aboveTgt]
  · rw [show (MissileSimulator.guidance ops0 c10above c10aboveTgt).2
        = decide (RxyzSq c10above c10aboveTgt < missile_Rc ^ 2) from rfl,
      decide_eq_false_iff_not]
    norm_num [RxyzSq, c10above, c10aboveTgt, missile_Rc]
  · norm_num [vmSq, normSq, c10still]

lemma run_frozen_zero (tgt : TargetState) (s : MissileState)
    (hp : s.position = (0, 0, 0)) (hv : s.velocity = (0, 0, 0)) :
    (MissileSimulator.run ops0 tgt s).position = (0, 0, 0)
    ∧ (MissileSimulator.run ops0 tgt s).velocity = (0, 0, 0) := by
  unfold MissileSimulator.run
  dsimp only
  split
  · exact ⟨hp, hv⟩
  · split
    · exact ⟨hp, hv⟩
    · constructor
      · simp [MissileSimulator.state_trans, hp, hv]
      · simp [MissileSimulator.state_trans, hp, hv, ops0]

lemma frozen_traj (tgt : ℕ → TargetState) (s0 : MissileState)
    (hp : s0.position = (0, 0, 0)) (hv : s0.velocity = (0, 0, 0)) :
    ∀ n, (missTraj ops0 tgt s0 n).position = (0, 0, 0)
      ∧ (missTraj ops0 tgt s0 n).velocity = (0, 0, 0) := by
  intro n
  induction n with
  | zero => exact ⟨hp, hv⟩
  | succ n ih => exact run_frozen_zero (tgt n) (missTraj ops0 tgt s0 n) ih.1 ih.2

lemma c7w_far : ∀ n, ¬ dSq ops0 tgtW7 sW7 n < missile_Rc ^ 2 := by
  intro n
  have h := (frozen_traj tgtW7 sW7 rfl rfl n).1
  unfold dSq RxyzSq
  rw [h]
  norm_num [tgtW7, missile_Rc]

/-- C7: with the guidance hit test never true, the missile is `Launched`
after `n` calls of `run()` exactly while the accumulated flight time
`n * dt` is at most `t_max = 30`, and `Inactive` exactly when it strictly
exceeds `t_max`; with `dt = 1/12` the transition happens on tick 361 and
not before. -/
theorem timeout_inactive_tick_c7 (ops : Ops) (tgt : ℕ → TargetState) (s0 : MissileState)
    (hL : s0.status = "Launched") (ht0 : s0.t = 0)
    (hmiss : ∀ n, ¬ dSq ops tgt s0 n < missile_Rc ^ 2) :
    (∀ n, (missTraj ops tgt s0 n).status =
        (if (n : ℚ) * s0.dt > missile_t_max then "Inactive" else "Launched"))
    ∧ (s0.dt = 1/12 →
        (missTraj ops tgt s0 360).status = "Launched"
        ∧ (missTraj ops tgt s0 361).status = "Inactive") := by
  have h30 : (0:ℚ) < missile_t_max := by norm_num [missile_t_max]
  have main : ∀ n, (missTraj ops tgt s0 n).status =
      (if (n : ℚ) * s0.dt > missile_t_max then "Inactive" else "Launched") := by
    intro n
    induction n with
    | zero =>
      rw [if_neg]
      · exact hL
      · push_cast
        rw [zero_mul]
        exact not_lt.mpr h30.le
    | succ n ih =>
      have hstep : (missTraj ops tgt s0 (n + 1)).status =
          (if dSq ops tgt s0 n < missile_Rc ^ 2 then "Hit"
           else if (missTraj ops tgt s0 n).t + (missTraj ops tgt s0 n).dt > missile_t_max
             then "Inactive" else (missTraj ops tgt s0 n).status) :=
        run_status_eq ops (tgt n) (missTraj ops tgt s0 n)
      rw [hstep, if_neg (hmiss n), missTraj_t, missTraj_dt, ht0, zero_add, ih]
      have hcast : ((n + 1 : ℕ) : ℚ) = (n : ℚ) + 1 := by push_cast; ring
      rw [hcast]
      by_cases hc : (n : ℚ) * s0.dt + s0.dt > missile_t_max
      · rw [if_pos hc, if_pos (by nlinarith)]
      · rw [if_neg hc, if_neg (by intro hcon; exact hc (by nlinarith)), if_neg]
        intro hgt
        rcases le_or_lt s0.dt 0 with hdt | hdt
        · have hn : (0:ℚ) ≤ (n : ℚ) := Nat.cast_nonneg n
          nlinarith [mul_nonneg hn (neg_nonneg.mpr hdt)]
        · exact hc (by linarith)
  refine ⟨main, ?_⟩
  intro hdt
  constructor
  · rw [main 360, if_neg]
    rw [hdt]
    norm_num [missile_t_max]
  · rw [main 361, if_pos]
    rw [hdt]
    norm_num [missile_t_max]

/-- Witness for C7: a frozen missile against a target holding 1000 m away
stays `Launched` through tick 360 and goes `Inactive` on tick 361. -/
theorem timeout_inactive_tick_c7_witness :
    (missTraj ops0 tgtW7 sW7 360).status = "Launched"
    ∧ (missTraj ops0 tgtW7 sW7 361).status = "Inactive" :=
  (timeout_inactive_tick_c7 ops0 tgtW7 sW7 rfl rfl c7w_far).2 rfl

/-- C8: starting `Launched` with 3D distance above the kill radius and the
distance non-increasing tick over tick, the status after `run()` call
`n + 1` is Hit exactly when the squared 3D distance checked by that call
is below the squared kill radius — so the transition to Hit happens at
the first call whose distance is below the kill radius and at no earlier
call. -/
theorem hit_first_below_kill_radius_c8 (ops : Ops) (tgt : ℕ → TargetState) (s0 : MissileState)
    (hL : s0.status = "Launched")
    (hfar : missile_Rc ^ 2 < dSq ops tgt s0 0)
    (hmono : ∀ n, dSq ops tgt s0 (n + 1) ≤ dSq ops tgt s0 n) :
    ∀ n, ((missTraj ops tgt s0 (n + 1)).status = "Hit"
      ↔ dSq ops tgt s0 n < missile_Rc ^ 2) := by
  have hstep : ∀ m, (missTraj ops tgt s0 (m + 1)).status =
      (if dSq ops tgt s0 m < missile_Rc ^ 2 then "Hit"
       else if (missTraj ops tgt s0 m).t + (missTraj ops tgt s0 m).dt > missile_t_max
         then "Inactive" else (missTraj ops tgt s0 m).status) :=
    fun m => run_status_eq ops (tgt m) (missTraj ops tgt s0 m)
  intro n
  induction n with
  | zero =>
    rw [hstep 0]
    by_cases h : dSq ops tgt s0 0 < missile_Rc ^ 2
    · rw [if_pos h]
      exact iff_of_true rfl h
    · rw [if_neg h]
      refine iff_of_false ?_ h
      split
      · decide
      · show ¬ (missTraj ops tgt s0 0).status = "Hit"
        rw [show missTraj ops tgt s0 0 = s0 from rfl, hL]
        decide
  | succ m ih =>
    rw [hstep (m + 1)]
    by_cases h : dSq ops tgt s0 (m + 1) < missile_Rc ^ 2
    · rw [if_pos h]
      exact iff_of_true rfl h
    · rw [if_neg h]
      refine iff_of_false ?_ h
      split
      · decide
      · intro hhit
        exact h (lt_of_le_of_lt (hmono m) (ih.mp hhit))

lemma c8w_dSq : ∀ n, dSq ops0 tgtW8 sW8 n = (max (400 - (n : ℚ)) 250) ^ 2 := by
  intro n
  have h := (frozen_traj tgtW8 sW8 rfl rfl n).1
  unfold dSq RxyzSq
  rw [h]
  simp only [tgtW8]
  ring

lemma c8w_mono : ∀ n, dSq ops0 tgtW8 sW8 (n + 1) ≤ dSq ops0 tgtW8 sW8 n := by
  intro n
  rw [c8w_dSq, c8w_dSq]
  have hcast : ((n + 1 : ℕ) : ℚ) = (n : ℚ) + 1 := by push_cast; ring
  rw [hcast]
  have h1 : (0:ℚ) ≤ max (400 - ((n:ℚ) + 1)) 250 :=
    le_trans (by norm_num) (le_max_right _ _)
  have h2 : max (400 - ((n:ℚ) + 1)) 250 ≤ max (400 - (n:ℚ)) 250 :=
    max_le_max (by linarith) le_rfl
  exact pow_le_pow_left₀ h1 h2 2

lemma c8w_far : missile_Rc ^ 2 < dSq ops0 tgtW8 sW8 0 := by
  rw [c8w_dSq]
  have h : max (400 - ((0:ℕ):ℚ)) 250 = 400 := by norm_num [max_def]
  rw [h]
  norm_num [missile_Rc]

/-- Witness for C8: with the target closing from 400 m, the squared
distance first drops under `300²` at tick index 101, so the status is Hit
after call 102 and not after call 101. -/
theorem hit_first_below_kill_radius_c8_witness :
    (missTraj ops0 tgtW8 sW8 102).status = "Hit"
    ∧ ¬ (missTraj ops0 tgtW8 sW8 101).status = "Hit" := by
  have H := hit_first_below_kill_radius_c8 ops0 tgtW8 sW8 rfl c8w_far c8w_mono
  constructor
  · refine (H 101).mpr ?_
    rw [c8w_dSq]
    have h101 : max (400 - ((101:ℕ):ℚ)) 250 = 299 := by norm_num [max_def]
    rw [h101]
    norm_num [missile_Rc]
  · intro hc
    have h := (H 100).mp hc
    rw [c8w_dSq] at h
    have h100 : max (400 - ((100:ℕ):ℚ)) 250 = 300 := by norm_num [max_def]
    rw [h100] at h
    norm_num [missile_Rc] at h

lemma gpv3_no_hook (p1 p2 p3 : Property) (s : AircraftState)
    (h1 : p1.update.isNone = true) (h2 : p2.update.isNone = true)
    (h3 : p3.update.isNone = true) :
    get_property_values [p1, p2, p3] s
      = ([lookupStore s.store p1.name_jsbsim, lookupStore s.store p2.name_jsbsim,
          lookupStore s.store p3.name_jsbsim], s) := by
  simp [get_property_values, getP_no_hook, h1, h2, h3]

lemma updateProperties_no_hook (ops : Ops) (cat : AcCatalog) (s : AircraftState)
    (h : noHooks cat) :
    updateProperties ops cat s =
      { s with
        geodetic := (lookupStore s.store cat.position_long_gc_deg.name_jsbsim,
                     lookupStore s.store cat.position_lat_geod_deg.name_jsbsim,
                     lookupStore s.store cat.position_h_sl_m.name_jsbsim)
        position := ops.lla2neu
          (lookupStore s.store cat.position_long_gc_deg.name_jsbsim,
           lookupStore s.store cat.position_lat_geod_deg.name_jsbsim,
           lookupStore s.store cat.position_h_sl_m.name_jsbsim)
          (s.lon0, s.lat0, s.alt0)
        poseture := (lookupStore s.store cat.attitude_roll_rad.name_jsbsim,
                     lookupStore s.store cat.attitude_pitch_rad.name_jsbsim,
                     lookupStore s.store cat.attitude_heading_true_rad.name_jsbsim)
        velocity := (lookupStore s.store cat.velocities_v_north_mps.name_jsbsim,
                     lookupStore s.store cat.velocities_v_east_mps.name_jsbsim,
                     lookupStore s.store cat.velocities_v_down_mps.name_jsbsim) } := by
  obtain ⟨h1, h2, h3, h4, h5, h6, h7, h8, h9⟩ := h
  rw [updateProperties]
  rw [gpv3_no_hook _ _ _ _ h1 h2 h3]
  dsimp only
  rw [gpv3_no_hook _ _ _ _ h4 h5 h6]
  dsimp only
  rw [gpv3_no_hook _ _ _ _ h7 h8 h9]
  rfl

/-- C9: `AircraftSimulator.run` raises a hard `RuntimeError` exactly when
the backing FDM's `run()` returns false; on a successful step it returns
with the cached geodetic triple re-derived from the three named position
properties of the FDM store, the NEU position recomputed by applying the
`LLA2NEU` transform to that geodetic triple about the recorded origin,
and the attitude and velocity triples re-read from the FDM's current
property values. -/
theorem aircraft_run_refresh_c9 (ops : Ops) (cat : AcCatalog) (fdm : JSBSimExec)
    (s : AircraftState) (hno : noHooks cat) :
    (fdm.run_result = false →
        AircraftSimulator.run ops cat fdm s = Except.error PyErr.runtimeError)
    ∧ (fdm.run_result = true →
        AircraftSimulator.run ops cat fdm s
          = Except.ok (updateProperties ops cat { s with store := fdm.post }, true)
        ∧ (updateProperties ops cat { s with store := fdm.post }).geodetic
            = (lookupStore fdm.post cat.position_long_gc_deg.name_jsbsim,
               lookupStore fdm.post cat.position_lat_geod_deg.name_jsbsim,
               lookupStore fdm.post cat.position_h_sl_m.name_jsbsim)
        ∧ (updateProperties ops cat { s with store := fdm.post }).position
            = ops.lla2neu (updateProperties ops cat { s with store := fdm.post }).geodetic
                (s.lon0, s.lat0, s.alt0)
        ∧ (updateProperties ops cat { s with store := fdm.post }).poseture
            = (lookupStore fdm.post cat.attitude_roll_rad.name_jsbsim,
               lookupStore fdm.post cat.attitude_pitch_rad.name_jsbsim,
               lookupStore fdm.post cat.attitude_heading_true_rad.name_jsbsim)
        ∧ (updateProperties ops cat { s with store := fdm.post }).velocity
            = (lookupStore fdm.post cat.velocities_v_north_mps.name_jsbsim,
               lookupStore fdm.post cat.velocities_v_east_mps.name_jsbsim,
               lookupStore fdm.post cat.velocities_v_down_mps.name_jsbsim)) := by
  have hup := updateProperties_no_hook ops cat { s with store := fdm.post } hno
  constructor
  · intro hf
    simp [AircraftSimulator.run, hf]
  · intro ht
    refine ⟨by simp [AircraftSimulator.run, ht], ?_, ?_, ?_, ?_⟩ <;> rw [hup]

/-- Witness for C9: a successful step against a concrete catalog and FDM
store refreshes the geodetic cache, and a failing step raises. -/
theorem aircraft_run_refresh_c9_witness :
    AircraftSimulator.run ops0 cat9 fdm9 acEmpty
      = Except.ok (updateProperties ops0 cat9 { acEmpty with store := fdm9.post }, true)
    ∧ (updateProperties ops0 cat9 { acEmpty with store := fdm9.post }).geodetic
        = (120, 60, 5000)
    ∧ AircraftSimulator.run ops0 cat9 fdmBad acEmpty = Except.error PyErr.runtimeError := by
  have hno : noHooks cat9 := ⟨rfl, rfl, rfl, rfl, rfl, rfl, rfl, rfl, rfl⟩
  have H := (aircraft_run_refresh_c9 ops0 cat9 fdm9 acEmpty hno).2 rfl
  refine ⟨H.1, ?_, (aircraft_run_refresh_c9 ops0 cat9 fdmBad acEmpty hno).1 rfl⟩
  rw [H.2.1]
  decide

lemma bindKw_extends (params : List String) :
    ∀ (kw : List (String × PyVal)) (bound bound2 : List (String × PyVal)),
      bindKw params bound kw = Except.ok bound2 → ∃ ext, bound2 = bound ++ ext := by
  intro kw
  induction kw with
  | nil =>
    intro bound bound2 h
    refine ⟨[], ?_⟩
    have hb : bound = bound2 := by simpa [bindKw] using h
    simp [hb]
  | cons kv rest ih =>
    intro bound bound2 h
    rcases kv with ⟨k, v⟩
    rw [bindKw] at h
    split at h
    · exact absurd h (by simp)
    · split at h
      · obtain ⟨ext, hext⟩ := ih (bound ++ [(k, v)]) bound2 h
        exact ⟨(k, v) :: ext, by simp [hext]⟩
      · exact absurd h (by simp)

lemma bindArgs_parent_class (posargs : List PyVal) (kwargs : List (String × PyVal))
    (bound : List (String × PyVal))
    (h : bindArgs createParams (PyVal.classMissileSimulator :: posargs) kwargs
        = Except.ok bound) :
    getBound bound "parent" = PyVal.classMissileSimulator := by
  unfold bindArgs at h
  by_cases hlen : createParams.length < (PyVal.classMissileSimulator :: posargs).length
  · rw [if_pos hlen] at h
    exact absurd h (by simp)
  · rw [if_neg hlen] at h
    cases hk : bindKw createParams
        ((createParams.take (PyVal.classMissileSimulator :: posargs).length).zip
          (PyVal.classMissileSimulator :: posargs)) kwargs with
    | error e =>
      rw [hk] at h
      exact absurd h (by simp)
    | ok bound1 =>
      rw [hk] at h
      dsimp only at h
      by_cases hl : bound1.length = createParams.length
      · rw [if_pos hl] at h
        have hb : bound1 = bound := Except.ok.inj h
        subst hb
        obtain ⟨ext, hext⟩ := bindKw_extends createParams kwargs _ _ hk
        have hzip : (createParams.take (PyVal.classMissileSimulator :: posargs).length).zip
            (PyVal.classMissileSimulator :: posargs)
            = ("parent", PyVal.classMissileSimulator)
              :: ((createParams.tail.take posargs.length).zip posargs) := by
          simp [createParams]
        rw [hzip] at hext
        rw [hext]
        simp [getBound]
      · rw [if_neg hl] at h
        exact absurd h (by simp)

lemma createBody_class (t u mm : PyVal) :
    isOkE (createBody PyVal.classMissileSimulator t u mm) = false := by
  cases t <;> rfl

/-- C1: the `create` classmethod can never return a missile.  Its first
formal parameter is named `parent`, so the classmethod machinery binds
the class object there; `parent.dt` is then the property descriptor,
which compares unequal to any target's float `dt`, so the assertion
raises for every positionally-passed target (second conjunct); the call
site passing `parent=` as a keyword collides with the implicit class
binding and raises `TypeError` before the body runs (third conjunct); and
for every combination of positional and keyword arguments the call
returns no value (first conjunct). -/
theorem create_always_raises_c1 :
    (∀ (posargs : List PyVal) (kwargs : List (String × PyVal)),
        isOkE (MissileSimulator.callCreate posargs kwargs) = false)
    ∧ (∀ (a : AircraftState) (u mm : String),
        MissileSimulator.callCreate [PyVal.aircraftObj a, PyVal.str u, PyVal.str mm] []
          = Except.error PyErr.assertionError)
    ∧ (∀ (pv tv uv : PyVal),
        MissileSimulator.callCreate []
          [("parent", pv), ("target", tv), ("uid", uv)]
          = Except.error PyErr.typeError) := by
  refine ⟨?_, ?_, ?_⟩
  · intro posargs kwargs
    cases hb : bindArgs createParams (PyVal.classMissileSimulator :: posargs) kwargs with
    | error e =>
      have heq : MissileSimulator.callCreate posargs kwargs = Except.error e := by
        unfold MissileSimulator.callCreate
        rw [hb]
      rw [heq]
      rfl
    | ok bound =>
      have heq : MissileSimulator.callCreate posargs kwargs
          = createBody (getBound bound "parent") (getBound bound "target")
            (getBound bound "uid") (getBound bound "missile_model") := by
        unfold MissileSimulator.callCreate
        rw [hb]
      rw [heq, bindArgs_parent_class posargs kwargs bound hb]
      exact createBody_class _ _ _
  · intro a u mm
    rfl
  · intro pv tv uv
    rfl
